import Mathlib

/-!
Shallow embedding of the nemos/neurostatslib GLM estimation core.

Arrays of the numeric backend (jax.numpy) are modelled as `NDArray`: a shape
(list of dimension sizes) together with flat row-major data over `ℚ`.
The transcendental `jnp.log` is not computable over `ℚ`, so every function of
the source that applies it is parametrised by an arbitrary `log : ℚ → ℚ`;
all theorems hold for every such `log`, hence in particular for the real
logarithm used by the backend. Fallible code (Python `raise ValueError` /
`TypeError` / `NameError`) is embedded as `Except String`.
-/

namespace Nemos

/-- A jax.numpy ndarray: a shape together with flat row-major data. -/
structure NDArray where
  shape : List Nat
  data : List ℚ
deriving Repr, DecidableEq

namespace NDArray

/-- `arr.ndim` of the numeric backend: the number of axes. -/
def ndim (a : NDArray) : Nat := a.shape.length

/-- Well-formedness: the flat data has exactly `prod shape` entries. -/
def WF (a : NDArray) : Prop := a.data.length = a.shape.prod

instance (a : NDArray) : Decidable a.WF := by unfold WF; infer_instance

/-- Elementwise unary operation (`jnp` broadcasting of a scalar function). -/
def map (f : ℚ → ℚ) (a : NDArray) : NDArray := ⟨a.shape, a.data.map f⟩

/-- Elementwise binary operation between arrays of equal shape. -/
def map2 (f : ℚ → ℚ → ℚ) (a b : NDArray) : NDArray :=
  ⟨a.shape, List.zipWith f a.data b.data⟩

/-- `a - b` elementwise. -/
def sub (a b : NDArray) : NDArray := map2 (· - ·) a b

/-- `a * b` elementwise. -/
def mul (a b : NDArray) : NDArray := map2 (· * ·) a b

/-- `a / b` elementwise. -/
def div (a b : NDArray) : NDArray := map2 (· / ·) a b

/-- `c * a` scalar times array. -/
def smul (c : ℚ) (a : NDArray) : NDArray := map (c * ·) a

/-- `jnp.mean(a)`: the sum of all entries divided by their number. -/
def mean (a : NDArray) : ℚ := a.data.sum / a.data.length

end NDArray

/-!
## Observation (noise) model — src/neurostatslib/noise_model.py
-/

/-- `NoiseModel.FLOAT_EPS = jnp.finfo(float).eps`: the machine epsilon of the
float type, `2⁻⁵²` for the 64-bit float resolved by `jnp.finfo(float)`. -/
def FLOAT_EPS : ℚ := 1 / 2 ^ 52

/-- `jnp.clip(x, a_min=lo)`: clip below at `lo` (no upper bound). -/
def clipMin (lo x : ℚ) : ℚ := max lo x

/-- `PoissonNoiseModel.negative_log_likelihood(predicted_rate, y)`:
clips `predicted_rate` below at `FLOAT_EPS`, forms `x = y * log(predicted_rate)`
and returns `jnp.mean(predicted_rate - x)`. -/
def negative_log_likelihood (log : ℚ → ℚ) (predicted_rate y : NDArray) : ℚ :=
  let clipped := NDArray.map (clipMin FLOAT_EPS) predicted_rate
  let x := NDArray.mul y (NDArray.map log clipped)
  NDArray.mean (NDArray.sub clipped x)

/-- `PoissonNoiseModel.residual_deviance(predicted_rate, spike_counts)`:
`ratio = clip(spike_counts / predicted_rate, FLOAT_EPS, inf)` and elementwise
`2 * (spike_counts * log(ratio) - (spike_counts - predicted_rate))`. -/
def residual_deviance (log : ℚ → ℚ) (predicted_rate spike_counts : NDArray) :
    NDArray :=
  let rat := NDArray.map (clipMin FLOAT_EPS) (NDArray.div spike_counts predicted_rate)
  NDArray.smul 2
    (NDArray.sub (NDArray.mul spike_counts (NDArray.map log rat))
      (NDArray.sub spike_counts predicted_rate))

/-- `NoiseModel.pseudo_r2(predicted_rate, y)`: residual and null deviances are
sums of squared per-cell residual-deviance terms, the null model being the
constant rate `y.mean()` broadcast over `y.shape`. -/
def pseudo_r2 (log : ℚ → ℚ) (predicted_rate y : NDArray) : ℚ :=
  let res_dev_t := residual_deviance log predicted_rate y
  let resid_deviance := (res_dev_t.data.map (fun t => t ^ 2)).sum
  let null_mu : NDArray := ⟨y.shape, y.data.map (fun _ => y.mean)⟩
  let null_dev_t := residual_deviance log null_mu y
  let null_deviance := (null_dev_t.data.map (fun t => t ^ 2)).sum
  (null_deviance - resid_deviance) / null_deviance

/-- The mutable state of `PoissonNoiseModel` relevant to scale estimation:
its `scale` attribute (set to `1` by `__init__`). -/
structure PoissonNoiseModel where
  scale : ℚ
deriving Repr, DecidableEq

/-- `PoissonNoiseModel.estimate_scale(predicted_rate)`: executes
`self.scale = 1.0`, ignoring `predicted_rate`. -/
def PoissonNoiseModel.estimate_scale (m : PoissonNoiseModel)
    (_predicted_rate : NDArray) : PoissonNoiseModel :=
  { m with scale := 1 }

/-!
## Parameter & input validators — src/nemos/base_class.py (BaseRegressor)
-/

/-- Error message of `_check_input_dimensionality` for a non-2D `y`. -/
def y_dim_msg : String :=
  "y must be two-dimensional, with shape (n_timebins, n_neurons)"

/-- Error message of `_check_input_dimensionality` for a non-3D `X`. -/
def X_dim_msg : String :=
  "X must be three-dimensional, with shape (n_timebins, n_neurons, n_features)"

/-- `BaseRegressor._check_input_dimensionality(X, y)`: `y`, when given, must be
2-dimensional and `X`, when given, 3-dimensional. -/
def _check_input_dimensionality (X y : Option NDArray) : Except String Unit := do
  match y with
  | some yv => if yv.ndim ≠ 2 then throw y_dim_msg
  | none => pure ()
  match X with
  | some Xv => if Xv.ndim ≠ 3 then throw X_dim_msg
  | none => pure ()

/-- Error message for coefficient/bias `n_neurons` disagreement inside `params`. -/
def params_n_neurons_msg (a b : Nat) : String :=
  "Model parameters have inconsistent shapes. " ++
  "Spike basis coefficients must be of shape (n_neurons, n_features), and " ++
  "bias terms must be of shape (n_neurons,) but n_neurons doesn't look the same in both! " ++
  "Coefficients n_neurons: " ++ toString a ++ ", bias n_neurons: " ++ toString b

/-- Error message for `n_neurons` disagreement between `params` and an input. -/
def input_n_neurons_msg (a b : Nat) : String :=
  "The number of neurons in the model parameters and in the inputs" ++
  "must match." ++
  "parameters has n_neurons: " ++ toString a ++ ", " ++
  "the input provided has n_neurons: " ++ toString b

/-- Error message for feature-count disagreement between coefficients and `X`. -/
def n_features_msg (a b : Nat) : String :=
  "Inconsistent number of features. " ++
  "spike basis coefficients has " ++ toString a ++ " features, " ++
  "X has " ++ toString b ++ " features instead!"

/-- `BaseRegressor._check_input_and_params_consistency(params, X, y)`:
neuron counts must agree between `params[0]`, `params[1]`, `y` and `X`, and
the feature count between `params[0]` and `X`'s last axis. -/
def _check_input_and_params_consistency (params : NDArray × NDArray)
    (X y : Option NDArray) : Except String Unit := do
  let n_neurons := params.1.shape.getD 0 0
  if n_neurons ≠ params.2.shape.getD 0 0 then
    throw (params_n_neurons_msg n_neurons (params.2.shape.getD 0 0))
  match y with
  | some yv =>
      if yv.shape.getD 1 0 ≠ n_neurons then
        throw (input_n_neurons_msg n_neurons (yv.shape.getD 1 0))
  | none => pure ()
  match X with
  | some Xv => do
      if Xv.shape.getD 1 0 ≠ n_neurons then
        throw (input_n_neurons_msg n_neurons (Xv.shape.getD 1 0))
      if params.1.shape.getD 1 0 ≠ Xv.shape.getD 2 0 then
        throw (n_features_msg (params.1.shape.getD 1 0) (Xv.shape.getD 2 0))
  | none => pure ()

/-- Error message of `_check_input_n_timepoints`. -/
def n_timepoints_msg (tx ty : Nat) : String :=
  "The number of time-points in X and y must agree. " ++
  "X has " ++ toString tx ++ " time-points, " ++
  "y has " ++ toString ty ++ " instead!"

/-- `BaseRegressor._check_input_n_timepoints(X, y)`: the time axes must agree. -/
def _check_input_n_timepoints (X y : NDArray) : Except String Unit :=
  if X.shape.getD 0 0 ≠ y.shape.getD 0 0 then
    .error (n_timepoints_msg (X.shape.getD 0 0) (y.shape.getD 0 0))
  else .ok ()

/-- `nemos.utils.check_invalid_entry(arr, name)` rejects NaN/Inf entries; in
the rational embedding no entry is NaN or Inf, so the check always passes. -/
def check_invalid_entry (_arr : NDArray) (_name : String) : Except String Unit :=
  .ok ()

/-- `BaseRegressor._check_and_convert_params(params)`: a length-2 collection
whose first element is rank 2 and second rank 1 (the array conversion itself
cannot fail on already-numeric arrays). -/
def _check_and_convert_params (params : List NDArray) :
    Except String (NDArray × NDArray) := do
  if params.length ≠ 2 then
    throw "Params needs to be array-like of length two."
  let p0 := params.getD 0 ⟨[], []⟩
  let p1 := params.getD 1 ⟨[], []⟩
  if p0.ndim ≠ 2 then
    throw ("params[0] must be of shape (n_neurons, n_features), but" ++
      "params[0] has " ++ toString p0.ndim ++ " dimensions!")
  if p1.ndim ≠ 1 then
    throw ("params[1] must be of shape (n_neurons,) but " ++
      "params[1] has " ++ toString p1.ndim ++ " dimensions!")
  return (p0, p1)

/-- `jnp.mean(y, axis=0)` for a 2-D array of shape `(T, N)`: per-column means. -/
def meanAxis0 (y : NDArray) : NDArray :=
  let T := y.shape.getD 0 0
  let N := y.shape.getD 1 0
  ⟨[N], (List.range N).map
    (fun n => ((List.range T).map (fun t => y.data.getD (t * N + n) 0)).sum / T)⟩

/-- `jnp.zeros((n, m))`. -/
def zeros (n m : Nat) : NDArray := ⟨[n, m], List.replicate (n * m) 0⟩

/-- `BaseRegressor._preprocess_fit(X, y, init_params)`: dimensionality,
time-alignment and finiteness checks, then default parameter initialization
(`jnp.zeros((n_neurons, n_features))` and `jnp.log(jnp.mean(y, axis=0))`)
when `init_params` is `None`, then input/parameter consistency. -/
def _preprocess_fit (log : ℚ → ℚ) (X y : NDArray)
    (init_params : Option (List NDArray)) :
    Except String (NDArray × NDArray × (NDArray × NDArray)) := do
  _check_input_dimensionality (some X) (some y)
  _check_input_n_timepoints X y
  check_invalid_entry X "X"
  check_invalid_entry y "y"
  let n_neurons := y.shape.getD 1 0
  let n_features := X.shape.getD 2 0
  let ip ← match init_params with
    | none => pure (zeros n_neurons n_features, NDArray.map log (meanAxis0 y))
    | some p => _check_and_convert_params p
  _check_input_and_params_consistency ip (some X) (some y)
  return (X, y, ip)

/-- Error message of `_preprocess_simulate` when exactly one of `init_y` and
`params_recurrent` is supplied. -/
def xor_msg : String :=
  "Both `init_y` and `params_r` should be provided, or neither should be provided."

/-- `BaseRegressor._preprocess_simulate(feedforward_input, params_feedforward,
init_y, params_recurrent)`: validates the feedforward input, requires `init_y`
and `params_recurrent` to be given both or neither, validates them when both
are given, and returns the tuple `(feedforward_input,)` or
`(feedforward_input, init_y)`. -/
def _preprocess_simulate (feedforward_input : NDArray)
    (params_feedforward : NDArray × NDArray)
    (init_y : Option NDArray) (params_recurrent : Option (NDArray × NDArray)) :
    Except String (List NDArray) := do
  _check_input_dimensionality (some feedforward_input) none
  _check_input_and_params_consistency params_feedforward (some feedforward_input) none
  check_invalid_entry feedforward_input "feedforward_input"
  match init_y, params_recurrent with
  | some _, none => throw xor_msg
  | none, some _ => throw xor_msg
  | some iy, some pr => do
      _check_input_dimensionality none (some iy)
      _check_input_and_params_consistency pr none (some iy)
      return [feedforward_input, iy]
  | none, none => return [feedforward_input]

/-!
## Solver / regularizer layer — spec-modelled

The module `src/neurostatslib/solver.py` is not part of the source tree (only
its test suite `tests/test_solver.py` is), so the definitions below are
modelled from the spec (§4.3, §6) and cross-checked against the behaviour the
tests expect.
-/

/-- The concrete regularizer/solver classes of the spec (§4.3, §6). -/
inductive SolverClass
  | UnRegularizedSolver
  | RidgeSolver
  | LassoSolver
  | GroupLassoSolver
deriving Repr, DecidableEq

/-- Display name of a solver class, used in its rejection message. -/
def SolverClass.name : SolverClass → String
  | .UnRegularizedSolver => "UnRegularized"
  | .RidgeSolver => "Ridge"
  | .LassoSolver => "Lasso"
  | .GroupLassoSolver => "GroupLasso"

/-- Modelled from the spec: the per-regularizer solver allow-lists of §6
(`solver.py` is missing from the source tree). Unregularized and Ridge share
the gradient-descent and quasi-Newton families; Lasso and GroupLasso allow
only the proximal-gradient routine. -/
def allowed_solvers : SolverClass → List String
  | .UnRegularizedSolver =>
      ["GradientDescent", "BFGS", "LBFGS", "ScipyMinimize", "NonlinearCG",
       "ScipyBoundedMinimize", "LBFGSB"]
  | .RidgeSolver =>
      ["GradientDescent", "BFGS", "LBFGS", "ScipyMinimize", "NonlinearCG",
       "ScipyBoundedMinimize", "LBFGSB"]
  | .LassoSolver => ["ProximalGradient"]
  | .GroupLassoSolver => ["ProximalGradient"]

/-- The value-error message rejecting a solver name, naming the rejected
solver and the regularizer type (spec §4.3; matched by the tests as
"Solver `{name}` not allowed for "). -/
def solver_not_allowed_msg (c : SolverClass) (solver_name : String) : String :=
  "Solver `" ++ solver_name ++ "` not allowed for " ++ c.name ++ " regularization."

/-- Modelled from the spec: constructing a solver or setting its
`solver_name` checks membership in the regularizer-specific allow-list,
raising a value error naming the rejected solver on failure (§4.3). -/
def check_solver_name (c : SolverClass) (solver_name : String) :
    Except String Unit :=
  if solver_name ∈ allowed_solvers c then .ok ()
  else .error (solver_not_allowed_msg c solver_name)

/-- A constructed solver object: its class and its validated solver name. -/
structure Solver where
  cls : SolverClass
  solver_name : String
deriving Repr, DecidableEq

/-- Modelled from the spec: the solver constructor validates `solver_name`
against the class allow-list (§4.3). -/
def Solver.init (c : SolverClass) (solver_name : String) :
    Except String Solver := do
  check_solver_name c solver_name
  return ⟨c, solver_name⟩

/-- Modelled from the spec: `set_params(solver_name=...)` re-validates the
name against the class allow-list on every mutation (§4.3). -/
def Solver.set_solver_name (s : Solver) (solver_name : String) :
    Except String Solver := do
  check_solver_name s.cls solver_name
  return { s with solver_name := solver_name }

/-- Rejection message for a mask of wrong rank. -/
def mask_dim_msg : String :=
  "`mask` must be 2-dimensional, with shape (n_groups, n_features)!"

/-- Rejection message for mask entries outside {0, 1}. -/
def mask_elements_msg : String := "Mask elements be 0s and 1s!"

/-- Rejection message for a mask with zero groups. -/
def empty_mask_msg (n : Nat) : String :=
  "Empty mask provided! Mask has " ++ toString n ++ " groups!"

/-- Rejection message for a feature assigned to more than one group. -/
def group_assignment_msg : String :=
  "Incorrect group assignment. Some of the features are assigned " ++
  "to more than one group."

/-- Column sums of a 2-D mask of shape `(n_groups, n_features)`: for each
feature, the number of groups it is assigned to. -/
def colSums (mask : NDArray) : List ℚ :=
  let G := mask.shape.getD 0 0
  let F := mask.shape.getD 1 0
  (List.range F).map
    (fun j => ((List.range G).map (fun i => mask.data.getD (i * F + j) 0)).sum)

/-- Modelled from the spec: GroupLasso mask validation (§4.3; `solver.py` is
missing from the source tree). The mask must be exactly 2-dimensional, contain
only entries equal to 0 or 1, have at least one group (row), and assign each
feature (column) to at most one group. -/
def check_mask (mask : NDArray) : Except String Unit := do
  if mask.ndim ≠ 2 then throw mask_dim_msg
  if mask.data.any (fun t => t != 0 && t != 1) then throw mask_elements_msg
  if mask.shape.getD 0 0 = 0 then throw (empty_mask_msg (mask.shape.getD 0 0))
  if (colSums mask).any (fun q => decide (1 < q)) then throw group_assignment_msg

/-- A constructed GroupLasso solver: its validated name and mask. -/
structure GroupLassoSolver where
  solver_name : String
  mask : NDArray
deriving Repr, DecidableEq

/-- Modelled from the spec: the GroupLasso constructor validates the solver
name and the mask (§4.3: mask validation at construction). -/
def GroupLassoSolver.init (solver_name : String) (mask : NDArray) :
    Except String GroupLassoSolver := do
  check_solver_name .GroupLassoSolver solver_name
  check_mask mask
  return ⟨solver_name, mask⟩

/-- Modelled from the spec: `set_params(mask=...)` re-validates the mask on
every mutation (§4.3: mask validation on every subsequent mutation). -/
def GroupLassoSolver.set_mask (s : GroupLassoSolver) (mask : NDArray) :
    Except String GroupLassoSolver := do
  check_mask mask
  return { s with mask := mask }

/-- `sub` occurs as a contiguous substring of `s`. -/
def ContainsSubstr (s sub : String) : Prop :=
  ∃ l r : List Char, s.data = l ++ sub.data ++ r

/-- Rendering of an array shape, as the tuple syntax `(d1, d2, ...)`. -/
def shapeToStr (s : List Nat) : String :=
  "(" ++ String.intercalate ", " (s.map toString) ++ ")"

/-!
## Theorems: observation model
-/

/-- Fusing the elementwise operations of `negative_log_likelihood` into one
per-cell term. -/
lemma zipWith_nll (g log : ℚ → ℚ) :
    ∀ a b : List ℚ, a.length = b.length →
      List.zipWith (· - ·) (a.map g)
        (List.zipWith (· * ·) b ((a.map g).map log))
      = List.zipWith (fun r yv => g r - yv * log (g r)) a b := by
  intro a
  induction a with
  | nil => intro b _; simp
  | cons x xs ih =>
    intro b h
    cases b with
    | nil => simp at h
    | cons z zs =>
      simp only [List.map_cons, List.zipWith_cons_cons]
      rw [ih zs (by simpa using h)]

/-- C3: for every `predicted_rate` and `y` of equal shape,
`PoissonNoiseModel.negative_log_likelihood` returns the mean over all
time-bins and neurons of `predicted_rate - y * log(predicted_rate)`, where
`predicted_rate` is first clipped below at the positive floor `FLOAT_EPS`
(the machine epsilon of the float type). -/
theorem negative_log_likelihood_is_clipped_mean (log : ℚ → ℚ)
    (predicted_rate y : NDArray) (hs : predicted_rate.shape = y.shape)
    (hr : predicted_rate.WF) (hy : y.WF) :
    negative_log_likelihood log predicted_rate y =
      (List.zipWith
          (fun r yv => clipMin FLOAT_EPS r - yv * log (clipMin FLOAT_EPS r))
          predicted_rate.data y.data).sum
        / (predicted_rate.shape.prod : ℚ) := by
  have hr' : predicted_rate.data.length = predicted_rate.shape.prod := hr
  have hy' : y.data.length = y.shape.prod := hy
  have hlen : predicted_rate.data.length = y.data.length := by
    rw [hr', hy', hs]
  unfold negative_log_likelihood NDArray.mean NDArray.sub NDArray.mul
    NDArray.map2 NDArray.map
  simp only
  rw [zipWith_nll (clipMin FLOAT_EPS) log predicted_rate.data y.data hlen,
    List.length_zipWith, ← hlen, min_self, hr']

/-- Closed instance of `negative_log_likelihood_is_clipped_mean`, its
hypotheses discharged at a concrete input. -/
theorem negative_log_likelihood_is_clipped_mean_witness :
    (NDArray.mk [1, 2] [1, 2]).shape = (NDArray.mk [1, 2] [3, 4]).shape ∧
    (NDArray.mk [1, 2] [1, 2]).WF ∧ (NDArray.mk [1, 2] [3, 4]).WF ∧
    negative_log_likelihood (fun _ => 0) ⟨[1, 2], [1, 2]⟩ ⟨[1, 2], [3, 4]⟩ =
      (List.zipWith
          (fun r yv => clipMin FLOAT_EPS r - yv * (fun _ => (0 : ℚ)) (clipMin FLOAT_EPS r))
          (NDArray.mk [1, 2] [1, 2]).data (NDArray.mk [1, 2] [3, 4]).data).sum
        / ((NDArray.mk [1, 2] [1, 2]).shape.prod : ℚ) :=
  ⟨rfl, by decide, by decide,
    negative_log_likelihood_is_clipped_mean (fun _ => 0) ⟨[1, 2], [1, 2]⟩
      ⟨[1, 2], [3, 4]⟩ rfl (by decide) (by decide)⟩

/-- Fusing the elementwise operations of `residual_deviance` into one
per-cell term. -/
lemma zipWith_resid_dev (log : ℚ → ℚ) :
    ∀ y r : List ℚ, y.length = r.length →
      ((List.zipWith (· - ·)
          (List.zipWith (· * ·) y
            (((List.zipWith (· / ·) y r).map (clipMin FLOAT_EPS)).map log))
          (List.zipWith (· - ·) y r)).map (fun t => 2 * t))
      = List.zipWith
          (fun rv yv => 2 * (yv * log (clipMin FLOAT_EPS (yv / rv)) - (yv - rv)))
          r y := by
  intro y
  induction y with
  | nil => intro r _; simp
  | cons x xs ih =>
    intro r h
    cases r with
    | nil => simp at h
    | cons z zs =>
      simp only [List.map_cons, List.zipWith_cons_cons]
      rw [ih zs (by simpa using h)]

/-- C5: for every `predicted_rate` and `spike_counts` of equal shape,
`PoissonNoiseModel.residual_deviance` returns, elementwise,
`2 * (y * log(clip(y / rate, eps, inf)) - (y - rate))` where `eps` is the
model's `FLOAT_EPS` constant. -/
theorem residual_deviance_is_elementwise (log : ℚ → ℚ)
    (predicted_rate spike_counts : NDArray)
    (hs : predicted_rate.shape = spike_counts.shape)
    (hr : predicted_rate.WF) (hy : spike_counts.WF) :
    (residual_deviance log predicted_rate spike_counts).data =
      List.zipWith
        (fun rv yv => 2 * (yv * log (clipMin FLOAT_EPS (yv / rv)) - (yv - rv)))
        predicted_rate.data spike_counts.data := by
  have hr' : predicted_rate.data.length = predicted_rate.shape.prod := hr
  have hy' : spike_counts.data.length = spike_counts.shape.prod := hy
  have hlen : spike_counts.data.length = predicted_rate.data.length := by
    rw [hr', hy', hs]
  unfold residual_deviance NDArray.smul NDArray.sub NDArray.mul NDArray.div
    NDArray.map2 NDArray.map
  simp only
  rw [zipWith_resid_dev log spike_counts.data predicted_rate.data hlen]

/-- Closed instance of `residual_deviance_is_elementwise`, its hypotheses
discharged at a concrete input. -/
theorem residual_deviance_is_elementwise_witness :
    (NDArray.mk [2, 1] [1, 2]).shape = (NDArray.mk [2, 1] [0, 3]).shape ∧
    (NDArray.mk [2, 1] [1, 2]).WF ∧ (NDArray.mk [2, 1] [0, 3]).WF ∧
    (residual_deviance (fun _ => 0) ⟨[2, 1], [1, 2]⟩ ⟨[2, 1], [0, 3]⟩).data =
      List.zipWith
        (fun rv yv => 2 * (yv * (fun _ => (0 : ℚ)) (clipMin FLOAT_EPS (yv / rv)) - (yv - rv)))
        (NDArray.mk [2, 1] [1, 2]).data (NDArray.mk [2, 1] [0, 3]).data :=
  ⟨rfl, by decide, by decide,
    residual_deviance_is_elementwise (fun _ => 0) ⟨[2, 1], [1, 2]⟩
      ⟨[2, 1], [0, 3]⟩ rfl (by decide) (by decide)⟩

/-- C4: for every `predicted_rate` and `y` of equal shape with nonzero null
deviance, `pseudo_r2` returns `(null_deviance - resid_deviance) /
null_deviance`, the null model being the constant rate `mean(y)` broadcast
across all cells, and each deviance the sum over cells of the squared
per-cell residual-deviance terms. -/
theorem pseudo_r2_is_deviance_ratio (log : ℚ → ℚ) (predicted_rate y : NDArray)
    (_hnull :
      ((residual_deviance log ⟨y.shape, List.replicate y.data.length y.mean⟩
          y).data.map (fun t => t ^ 2)).sum ≠ 0) :
    pseudo_r2 log predicted_rate y =
      (((residual_deviance log ⟨y.shape, List.replicate y.data.length y.mean⟩
            y).data.map (fun t => t ^ 2)).sum
        - ((residual_deviance log predicted_rate y).data.map
            (fun t => t ^ 2)).sum)
        / ((residual_deviance log ⟨y.shape, List.replicate y.data.length y.mean⟩
            y).data.map (fun t => t ^ 2)).sum := by
  unfold pseudo_r2
  simp only
  rw [List.map_const' y.data y.mean]

/-- Closed instance of `pseudo_r2_is_deviance_ratio`, its hypothesis
discharged at a concrete input. -/
theorem pseudo_r2_is_deviance_ratio_witness :
    ((residual_deviance (fun _ => 0)
        ⟨(NDArray.mk [2, 1] [0, 2]).shape,
          List.replicate (NDArray.mk [2, 1] [0, 2]).data.length
            (NDArray.mk [2, 1] [0, 2]).mean⟩
        ⟨[2, 1], [0, 2]⟩).data.map (fun t => t ^ 2)).sum ≠ 0 ∧
    pseudo_r2 (fun _ => 0) ⟨[2, 1], [1, 1]⟩ ⟨[2, 1], [0, 2]⟩ =
      (((residual_deviance (fun _ => 0)
            ⟨(NDArray.mk [2, 1] [0, 2]).shape,
              List.replicate (NDArray.mk [2, 1] [0, 2]).data.length
                (NDArray.mk [2, 1] [0, 2]).mean⟩
            ⟨[2, 1], [0, 2]⟩).data.map (fun t => t ^ 2)).sum
        - ((residual_deviance (fun _ => 0) ⟨[2, 1], [1, 1]⟩
              ⟨[2, 1], [0, 2]⟩).data.map (fun t => t ^ 2)).sum)
        / ((residual_deviance (fun _ => 0)
            ⟨(NDArray.mk [2, 1] [0, 2]).shape,
              List.replicate (NDArray.mk [2, 1] [0, 2]).data.length
                (NDArray.mk [2, 1] [0, 2]).mean⟩
            ⟨[2, 1], [0, 2]⟩).data.map (fun t => t ^ 2)).sum :=
  have h :
      ((residual_deviance (fun _ => 0)
          ⟨(NDArray.mk [2, 1] [0, 2]).shape,
            List.replicate (NDArray.mk [2, 1] [0, 2]).data.length
              (NDArray.mk [2, 1] [0, 2]).mean⟩
          ⟨[2, 1], [0, 2]⟩).data.map (fun t => t ^ 2)).sum ≠ 0 := by
    unfold residual_deviance NDArray.smul NDArray.sub NDArray.mul NDArray.div
      NDArray.map2 NDArray.map NDArray.mean clipMin FLOAT_EPS
    norm_num [List.replicate_succ]
  ⟨h, pseudo_r2_is_deviance_ratio (fun _ => 0) ⟨[2, 1], [1, 1]⟩
      ⟨[2, 1], [0, 2]⟩ h⟩

/-- C6: for every argument value, `PoissonNoiseModel.estimate_scale` sets the
model's `scale` attribute to exactly `1.0`, regardless of the
`predicted_rate` supplied. -/
theorem estimate_scale_always_sets_one (m : PoissonNoiseModel)
    (predicted_rate : NDArray) :
    (m.estimate_scale predicted_rate).scale = 1 := rfl

/-!
## Theorems: input validators
-/

/-- C8: the dimensionality and time-alignment validators raise a value error
exactly when `y` is not 2-dimensional, or `X` is not 3-dimensional, or
`X.shape[0]` differs from `y.shape[0]`; inputs satisfying all three
conditions pass both checks. -/
theorem input_dimensionality_and_alignment_ok_iff (X y : NDArray) :
    (_check_input_dimensionality (some X) (some y) = .ok () ∧
      _check_input_n_timepoints X y = .ok ()) ↔
    (y.ndim = 2 ∧ X.ndim = 3 ∧ X.shape.getD 0 0 = y.shape.getD 0 0) := by
  unfold _check_input_dimensionality _check_input_n_timepoints
  by_cases hy : y.ndim = 2 <;> by_cases hX : X.ndim = 3 <;>
    by_cases ht : X.shape.getD 0 0 = y.shape.getD 0 0 <;>
    simp [hy, hX, ht, Bind.bind, Except.bind, Pure.pure, Except.pure, throw,
      throwThe, MonadExceptOf.throw, List.getD]

/-!
## Theorems: solver allow-lists and mask validation (spec-modelled)
-/

/-- C1: constructing a solver or setting its `solver_name` succeeds exactly
for names in the variant's allow-list, and otherwise raises a value error
naming the rejected solver; Unregularized and Ridge accept exactly
{GradientDescent, BFGS, LBFGS, ScipyMinimize, NonlinearCG,
ScipyBoundedMinimize, LBFGSB}, Lasso and GroupLasso exactly
{ProximalGradient}. -/
theorem solver_name_allow_lists (c : SolverClass) (sname : String) :
    (Solver.init c sname = .ok ⟨c, sname⟩ ↔ sname ∈ allowed_solvers c) ∧
    (∀ old, (Solver.mk c old).set_solver_name sname = .ok ⟨c, sname⟩ ↔
      sname ∈ allowed_solvers c) ∧
    (sname ∉ allowed_solvers c →
      Solver.init c sname = .error (solver_not_allowed_msg c sname) ∧
      (∀ old, (Solver.mk c old).set_solver_name sname =
        .error (solver_not_allowed_msg c sname)) ∧
      ContainsSubstr (solver_not_allowed_msg c sname) sname) ∧
    allowed_solvers .UnRegularizedSolver =
      ["GradientDescent", "BFGS", "LBFGS", "ScipyMinimize", "NonlinearCG",
        "ScipyBoundedMinimize", "LBFGSB"] ∧
    allowed_solvers .RidgeSolver = allowed_solvers .UnRegularizedSolver ∧
    allowed_solvers .LassoSolver = ["ProximalGradient"] ∧
    allowed_solvers .GroupLassoSolver = ["ProximalGradient"] := by
  refine ⟨?_, fun old => ?_, fun h => ⟨?_, fun old => ?_, ?_⟩, rfl, rfl, rfl,
    rfl⟩
  case _ =>
    unfold Solver.init check_solver_name
    by_cases h' : sname ∈ allowed_solvers c <;>
      simp [h', Bind.bind, Except.bind, Pure.pure, Except.pure, throw,
        throwThe, MonadExceptOf.throw]
  case _ =>
    unfold Solver.set_solver_name check_solver_name
    by_cases h' : sname ∈ allowed_solvers c <;>
      simp [h', Bind.bind, Except.bind, Pure.pure, Except.pure, throw,
        throwThe, MonadExceptOf.throw]
  case _ =>
    unfold Solver.init check_solver_name
    simp [h, Bind.bind, Except.bind, throw, throwThe, MonadExceptOf.throw]
  case _ =>
    unfold Solver.set_solver_name check_solver_name
    simp [h, Bind.bind, Except.bind, throw, throwThe, MonadExceptOf.throw]
  case _ =>
    exact ⟨"Solver `".data,
      ("` not allowed for " ++ c.name ++ " regularization.").data,
      by simp [solver_not_allowed_msg, String.data_append]⟩

/-- Closed instance of `solver_name_allow_lists`: `LassoSolver` rejects
`GradientDescent` with the value error naming it, and accepts
`ProximalGradient`. -/
theorem solver_name_allow_lists_witness :
    "GradientDescent" ∉ allowed_solvers .LassoSolver ∧
    Solver.init .LassoSolver "GradientDescent" =
      .error (solver_not_allowed_msg .LassoSolver "GradientDescent") ∧
    Solver.init .LassoSolver "ProximalGradient" =
      .ok ⟨.LassoSolver, "ProximalGradient"⟩ :=
  ⟨by decide,
    ((solver_name_allow_lists .LassoSolver "GradientDescent").2.2.1
      (by decide)).1,
    (solver_name_allow_lists .LassoSolver "ProximalGradient").1.mpr
      (by decide)⟩

/-- The entries check of the mask validation, as a proposition: no entry
other than exactly 0 or 1. -/
lemma any_bad_entry_eq_false (l : List ℚ) :
    (l.any fun t => t != 0 && t != 1) = false ↔ ∀ t ∈ l, t = 0 ∨ t = 1 := by
  simp [List.any_eq_false, bne_iff_ne]
  constructor
  · intro h t ht
    rcases eq_or_ne t 0 with h0 | h0
    · exact Or.inl h0
    · exact Or.inr (h t ht h0)
  · intro h t ht h0
    rcases h t ht with h' | h'
    · exact absurd h' h0
    · exact h'

/-- The column-sum check of the mask validation, as a proposition: every
column sum at most 1. -/
lemma any_gt_one_eq_false (l : List ℚ) :
    (l.any fun q => decide (1 < q)) = false ↔ ∀ q ∈ l, q ≤ 1 := by
  simp [List.any_eq_false, not_lt]

/-- C2: GroupLasso mask validation, run at construction and on every mutation
of the mask, accepts exactly the 2-dimensional masks with entries in {0, 1},
at least one row, and every column summing to at most 1 (so a column summing
to 0 is accepted), and raises a value error otherwise. -/
theorem group_lasso_mask_validation (mask : NDArray) :
    (check_mask mask = .ok () ↔
      (mask.ndim = 2 ∧ (∀ t ∈ mask.data, t = 0 ∨ t = 1) ∧
        mask.shape.getD 0 0 ≠ 0 ∧ (∀ q ∈ colSums mask, q ≤ 1))) ∧
    (¬(mask.ndim = 2 ∧ (∀ t ∈ mask.data, t = 0 ∨ t = 1) ∧
        mask.shape.getD 0 0 ≠ 0 ∧ (∀ q ∈ colSums mask, q ≤ 1)) →
      ∃ e, check_mask mask = .error e) ∧
    (GroupLassoSolver.init "ProximalGradient" mask =
        .ok ⟨"ProximalGradient", mask⟩ ↔ check_mask mask = .ok ()) ∧
    (∀ s : GroupLassoSolver, s.set_mask mask = .ok ⟨s.solver_name, mask⟩ ↔
      check_mask mask = .ok ()) := by
  have hmain : check_mask mask = .ok () ↔
      (mask.ndim = 2 ∧ (∀ t ∈ mask.data, t = 0 ∨ t = 1) ∧
        mask.shape.getD 0 0 ≠ 0 ∧ (∀ q ∈ colSums mask, q ≤ 1)) := by
    rcases Bool.eq_false_or_eq_true (mask.data.any fun t => t != 0 && t != 1)
      with h2 | h2 <;>
    rcases Bool.eq_false_or_eq_true ((colSums mask).any fun q => decide (1 < q))
      with h4 | h4 <;>
    by_cases h1 : mask.ndim = 2 <;> by_cases h3 : mask.shape.getD 0 0 = 0 <;>
      simp [h1, h2, h3, h4, check_mask, ← any_bad_entry_eq_false,
        ← any_gt_one_eq_false, Bind.bind, Except.bind, Pure.pure, Except.pure,
        throw, throwThe, MonadExceptOf.throw, List.getD] <;>
      (try (split <;> simp))
  have herr : ¬(mask.ndim = 2 ∧ (∀ t ∈ mask.data, t = 0 ∨ t = 1) ∧
      mask.shape.getD 0 0 ≠ 0 ∧ (∀ q ∈ colSums mask, q ≤ 1)) →
      ∃ e, check_mask mask = .error e := by
    intro h
    cases hc : check_mask mask with
    | error e => exact ⟨e, rfl⟩
    | ok v => cases v; exact absurd (hmain.mp hc) h
  refine ⟨hmain, herr, ?_, fun s => ?_⟩
  · unfold GroupLassoSolver.init check_solver_name
    cases hc : check_mask mask with
    | error e =>
        simp [hc, Bind.bind, Except.bind, Pure.pure, Except.pure,
          allowed_solvers]
    | ok v =>
        cases v
        simp [hc, Bind.bind, Except.bind, Pure.pure, Except.pure,
          allowed_solvers]
  · unfold GroupLassoSolver.set_mask
    cases hc : check_mask mask with
    | error e =>
        simp [hc, Bind.bind, Except.bind, Pure.pure, Except.pure]
    | ok v =>
        cases v
        simp [hc, Bind.bind, Except.bind, Pure.pure, Except.pure]

/-- Closed instance of `group_lasso_mask_validation`: the mask
`[[1,1,0,0],[0,0,1,0]]`, whose fourth column sums to 0 (a feature assigned to
no group), is accepted. -/
theorem group_lasso_mask_validation_witness :
    colSums ⟨[2, 4], [1, 1, 0, 0, 0, 0, 1, 0]⟩ = [1, 1, 1, 0] ∧
    check_mask ⟨[2, 4], [1, 1, 0, 0, 0, 0, 1, 0]⟩ = .ok () :=
  ⟨by norm_num [colSums, List.range_succ, List.getD],
    (group_lasso_mask_validation ⟨[2, 4], [1, 1, 0, 0, 0, 0, 1, 0]⟩).1.mpr
      ⟨rfl, by decide, by decide,
        by norm_num [colSums, List.range_succ, List.getD]⟩⟩

/-!
## Theorems: fit preprocessing
-/

/-- C7: when `_preprocess_fit` is invoked on a valid `(X, y)` pair with no
initial parameters, the defaulted initial parameters are the all-zero
coefficient array of shape `(n_neurons, n_features)` and the intercept array
`log(mean(y, axis=0))`. -/
theorem preprocess_fit_default_init (log : ℚ → ℚ) (X y : NDArray)
    (hy : y.ndim = 2) (hX : X.ndim = 3)
    (ht : X.shape.getD 0 0 = y.shape.getD 0 0)
    (hn : X.shape.getD 1 0 = y.shape.getD 1 0) :
    _preprocess_fit log X y none =
      .ok (X, y,
        (zeros (y.shape.getD 1 0) (X.shape.getD 2 0),
          NDArray.map log (meanAxis0 y))) := by
  have h1 : _check_input_dimensionality (some X) (some y) = .ok () := by
    unfold _check_input_dimensionality
    simp [hy, hX, Bind.bind, Except.bind, Pure.pure, Except.pure]
  have h2 : _check_input_n_timepoints X y = .ok () := by
    unfold _check_input_n_timepoints
    simp [ht, -List.getD_eq_getElem?_getD]
  have h3 : _check_input_and_params_consistency
      (zeros (y.shape.getD 1 0) (X.shape.getD 2 0),
        NDArray.map log (meanAxis0 y)) (some X) (some y) = .ok () := by
    unfold _check_input_and_params_consistency
    simp [zeros, meanAxis0, NDArray.map, hn, List.getD_cons_zero,
      List.getD_cons_succ, Bind.bind, Except.bind, Pure.pure, Except.pure,
      -List.getD_eq_getElem?_getD]
  unfold _preprocess_fit check_invalid_entry
  simp [h1, h2, h3, Bind.bind, Except.bind, Pure.pure, Except.pure,
    -List.getD_eq_getElem?_getD]

/-- Closed instance of `preprocess_fit_default_init`, its hypotheses
discharged at a concrete input. -/
theorem preprocess_fit_default_init_witness :
    (NDArray.mk [1, 1] [2]).ndim = 2 ∧ (NDArray.mk [1, 1, 1] [5]).ndim = 3 ∧
    (NDArray.mk [1, 1, 1] [5]).shape.getD 0 0 =
      (NDArray.mk [1, 1] [2]).shape.getD 0 0 ∧
    (NDArray.mk [1, 1, 1] [5]).shape.getD 1 0 =
      (NDArray.mk [1, 1] [2]).shape.getD 1 0 ∧
    _preprocess_fit (fun _ => 0) ⟨[1, 1, 1], [5]⟩ ⟨[1, 1], [2]⟩ none =
      .ok (⟨[1, 1, 1], [5]⟩, ⟨[1, 1], [2]⟩,
        (zeros ((NDArray.mk [1, 1] [2]).shape.getD 1 0)
            ((NDArray.mk [1, 1, 1] [5]).shape.getD 2 0),
          NDArray.map (fun _ => 0) (meanAxis0 ⟨[1, 1], [2]⟩))) :=
  ⟨by decide, by decide, by decide, by decide,
    preprocess_fit_default_init (fun _ => 0) ⟨[1, 1, 1], [5]⟩ ⟨[1, 1], [2]⟩
      (by decide) (by decide) (by decide) (by decide)⟩

/-!
## Theorems: error message content
-/

/-- C9 counterexample: the rank-mismatch value error for a 1-dimensional `y`
of shape `(5,)` — and equally for a 3-dimensional `y` of shape `(4, 4, 4)` —
is the fixed message `y_dim_msg`, which does not contain the actual shape of
the offending input. -/
theorem dimensionality_error_lacks_actual_shape :
    _check_input_dimensionality none (some ⟨[5], [0, 0, 0, 0, 0]⟩) =
      .error y_dim_msg ∧
    _check_input_dimensionality none (some ⟨[4, 4, 4], List.replicate 64 0⟩) =
      .error y_dim_msg ∧
    ¬ ContainsSubstr y_dim_msg (shapeToStr [5]) ∧
    ¬ ContainsSubstr y_dim_msg (shapeToStr [4, 4, 4]) := by
  refine ⟨rfl, rfl, ?_, ?_⟩
  · rintro ⟨l, r, h⟩
    have h5 : '5' ∈ y_dim_msg.data := by
      rw [h]
      have hm : '5' ∈ (shapeToStr [5]).data := by decide
      exact List.mem_append.mpr (Or.inl (List.mem_append.mpr (Or.inr hm)))
    exact absurd h5 (by decide)
  · rintro ⟨l, r, h⟩
    have h4 : '4' ∈ y_dim_msg.data := by
      rw [h]
      have hm : '4' ∈ (shapeToStr [4, 4, 4]).data := by decide
      exact List.mem_append.mpr (Or.inl (List.mem_append.mpr (Or.inr hm)))
    exact absurd h4 (by decide)

set_option maxRecDepth 4000 in
/-- C9 (amended): the time-alignment and consistency value errors carry both
counts involved (the expected one and the actual one); the rank-mismatch
value errors of the dimensionality validator name the expected shape only —
their fixed messages never contain the offending input's actual shape. -/
theorem shape_error_messages_content (a b : Nat) :
    (∀ X y : NDArray, X.shape.getD 0 0 ≠ y.shape.getD 0 0 →
      _check_input_n_timepoints X y =
        .error (n_timepoints_msg (X.shape.getD 0 0) (y.shape.getD 0 0))) ∧
    ContainsSubstr (n_timepoints_msg a b) (toString a) ∧
    ContainsSubstr (n_timepoints_msg a b) (toString b) ∧
    ContainsSubstr (params_n_neurons_msg a b) (toString a) ∧
    ContainsSubstr (params_n_neurons_msg a b) (toString b) ∧
    ContainsSubstr (input_n_neurons_msg a b) (toString a) ∧
    ContainsSubstr (input_n_neurons_msg a b) (toString b) ∧
    ContainsSubstr (n_features_msg a b) (toString a) ∧
    ContainsSubstr (n_features_msg a b) (toString b) ∧
    ContainsSubstr y_dim_msg "(n_timebins, n_neurons)" ∧
    ContainsSubstr X_dim_msg "(n_timebins, n_neurons, n_features)" := by
  refine ⟨fun X y h => ?_,
    ⟨("The number of time-points in X and y must agree. " ++ "X has ").data,
      (" time-points, " ++ "y has " ++ toString b ++ " instead!").data,
      by simp [n_timepoints_msg, String.data_append]⟩,
    ⟨("The number of time-points in X and y must agree. " ++ "X has " ++
        toString a ++ " time-points, " ++ "y has ").data,
      " instead!".data, by simp [n_timepoints_msg, String.data_append]⟩,
    ⟨("Model parameters have inconsistent shapes. " ++
        "Spike basis coefficients must be of shape (n_neurons, n_features), and " ++
        "bias terms must be of shape (n_neurons,) but n_neurons doesn't look the same in both! " ++
        "Coefficients n_neurons: ").data,
      (", bias n_neurons: " ++ toString b).data,
      by simp [params_n_neurons_msg, String.data_append]⟩,
    ⟨("Model parameters have inconsistent shapes. " ++
        "Spike basis coefficients must be of shape (n_neurons, n_features), and " ++
        "bias terms must be of shape (n_neurons,) but n_neurons doesn't look the same in both! " ++
        "Coefficients n_neurons: " ++ toString a ++ ", bias n_neurons: ").data,
      ([] : List Char),
      by simp [params_n_neurons_msg, String.data_append]⟩,
    ⟨("The number of neurons in the model parameters and in the inputs" ++
        "must match." ++ "parameters has n_neurons: ").data,
      (", " ++ "the input provided has n_neurons: " ++ toString b).data,
      by simp [input_n_neurons_msg, String.data_append]⟩,
    ⟨("The number of neurons in the model parameters and in the inputs" ++
        "must match." ++ "parameters has n_neurons: " ++ toString a ++ ", " ++
        "the input provided has n_neurons: ").data,
      ([] : List Char),
      by simp [input_n_neurons_msg, String.data_append]⟩,
    ⟨("Inconsistent number of features. " ++
        "spike basis coefficients has ").data,
      (" features, " ++ "X has " ++ toString b ++ " features instead!").data,
      by simp [n_features_msg, String.data_append]⟩,
    ⟨("Inconsistent number of features. " ++
        "spike basis coefficients has " ++ toString a ++ " features, " ++
        "X has ").data,
      " features instead!".data,
      by simp [n_features_msg, String.data_append]⟩,
    ⟨"y must be two-dimensional, with shape ".data, ([] : List Char),
      by decide⟩,
    ⟨"X must be three-dimensional, with shape ".data, ([] : List Char),
      by decide⟩⟩
  unfold _check_input_n_timepoints
  simp [h, -List.getD_eq_getElem?_getD]

/-!
## Theorems: simulate preprocessing
-/

/-- C10 counterexample: with valid inputs and both `init_y` and
`params_recurrent` provided, `_preprocess_simulate` returns the tuple
`(feedforward_input, init_y)` only: neither array of `params_recurrent` is
part of the returned tuple. -/
theorem preprocess_simulate_omits_recurrent_params :
    _preprocess_simulate ⟨[1, 1, 1], [1]⟩ (⟨[1, 1], [0]⟩, ⟨[1], [0]⟩)
        (some ⟨[1, 1], [2]⟩) (some (⟨[1, 2], [0, 0]⟩, ⟨[1], [0]⟩)) =
      .ok [⟨[1, 1, 1], [1]⟩, ⟨[1, 1], [2]⟩] ∧
    NDArray.mk [1, 2] [0, 0] ∉
      [NDArray.mk [1, 1, 1] [1], NDArray.mk [1, 1] [2]] ∧
    NDArray.mk [1] [0] ∉
      [NDArray.mk [1, 1, 1] [1], NDArray.mk [1, 1] [2]] := by
  exact ⟨rfl, by decide, by decide⟩

/-- C10 (amended): supplying exactly one of `init_y` and `params_recurrent`
raises the value error that both or neither must be provided; when both are
provided, their dimensionality and consistency are checked and `init_y` is
returned alongside the feedforward input; when neither is provided, only the
feedforward input is returned. -/
theorem preprocess_simulate_xor_and_return (ff : NDArray)
    (pf : NDArray × NDArray)
    (h1 : _check_input_dimensionality (some ff) none = .ok ())
    (h2 : _check_input_and_params_consistency pf (some ff) none = .ok ()) :
    (∀ iy, _preprocess_simulate ff pf (some iy) none = .error xor_msg) ∧
    (∀ pr, _preprocess_simulate ff pf none (some pr) = .error xor_msg) ∧
    _preprocess_simulate ff pf none none = .ok [ff] ∧
    (∀ iy pr, _check_input_dimensionality none (some iy) = .ok () →
      _check_input_and_params_consistency pr none (some iy) = .ok () →
      _preprocess_simulate ff pf (some iy) (some pr) = .ok [ff, iy]) := by
  refine ⟨fun iy => ?_, fun pr => ?_, ?_, fun iy pr hd hc => ?_⟩ <;>
    unfold _preprocess_simulate check_invalid_entry <;>
    simp [h1, h2, Bind.bind, Except.bind, Pure.pure, Except.pure, throw,
      throwThe, MonadExceptOf.throw]
  simp [hd, hc, Bind.bind, Except.bind, Pure.pure, Except.pure]

/-- Closed instance of `preprocess_simulate_xor_and_return`, its hypotheses
discharged at a concrete input. -/
theorem preprocess_simulate_xor_and_return_witness :
    _check_input_dimensionality (some ⟨[1, 1, 1], [1]⟩) none = .ok () ∧
    _check_input_and_params_consistency (⟨[1, 1], [0]⟩, ⟨[1], [0]⟩)
      (some ⟨[1, 1, 1], [1]⟩) none = .ok () ∧
    _preprocess_simulate ⟨[1, 1, 1], [1]⟩ (⟨[1, 1], [0]⟩, ⟨[1], [0]⟩)
      (some ⟨[1, 1], [2]⟩) none = .error xor_msg ∧
    _preprocess_simulate ⟨[1, 1, 1], [1]⟩ (⟨[1, 1], [0]⟩, ⟨[1], [0]⟩)
      none none = .ok [⟨[1, 1, 1], [1]⟩] :=
  ⟨rfl, rfl,
    (preprocess_simulate_xor_and_return ⟨[1, 1, 1], [1]⟩
        (⟨[1, 1], [0]⟩, ⟨[1], [0]⟩) rfl rfl).1 ⟨[1, 1], [2]⟩,
    (preprocess_simulate_xor_and_return ⟨[1, 1, 1], [1]⟩
        (⟨[1, 1], [0]⟩, ⟨[1], [0]⟩) rfl rfl).2.2.1⟩

end Nemos
